import Mathlib

/-!
Verification of the recipe execution engine of buchhalter-ai-cli.

Shallow embedding of the step dispatcher (`lib/browser/browser.go`,
`BrowserDriver.RunRecipe`, and `lib/browser/oauth2.go`,
`ClientAuthBrowserDriver.RunRecipe`), the OAuth2 token handling, the JSON
path extractor, the bounded download step, and the sleep step.

Modelling conventions:
- All network, browser and filesystem effects are abstracted into explicit
  environment values passed to the embedded functions; the functions compute
  exactly what the Go code computes from those inputs.
- A step handler's execution in the dispatcher's select is modelled by a
  `StepOutcome`: either the handler delivered a `StepResult` (together with
  the value of the driver's `newFilesCount` field at the moment the
  dispatcher builds the recipe result), or the per-recipe timeout fired.
- Observable side effects of the dispatcher (progress-sink sends and
  staging-directory purges) are collected as an ordered event list.
- Go `float64` progress arithmetic is modelled over `Rat`;
  Go `int` is modelled as `Int` with the explicit 64-bit clamp where the
  source library clamps (strconv range errors).
-/

/-- Embeds `utils.StepResult` (status, message, break flag). -/
structure StepResult where
  Status : String
  Message : String
  Break : Bool
deriving DecidableEq, Repr

/-- Embeds `utils.RecipeResult`. -/
structure RecipeResult where
  Status : String
  StatusText : String
  StatusTextFormatted : String
  LastStepId : String
  LastStepDescription : String
  LastErrorMessage : String
  NewFilesCount : Nat
deriving DecidableEq, Repr

/-- The zero value `var result utils.RecipeResult` the dispatcher loops start from. -/
def emptyRecipeResult : RecipeResult :=
  { Status := "", StatusText := "", StatusTextFormatted := "", LastStepId := ""
    LastStepDescription := "", LastErrorMessage := "", NewFilesCount := 0 }

/-- Embeds the fields of `parser.Step` read by the modelled handlers and the
dispatcher loops (the action tag, description, selector, value, URL, request
body and the document-extraction configuration). -/
structure Step where
  Action : String
  Description : String
  Selector : String
  Value : String
  URL : String
  Body : String
  ExtractDocumentIds : String
  ExtractDocumentFilenames : String
  DocumentUrl : String
deriving DecidableEq, Repr

/-- `lipgloss` bold terminal styling (`textStyleBold` in browser.go), modelled
as the identity on the rendered text. -/
def textStyleBold (s : String) : String := s

/-- The `newDocumentsText` computation both `RunRecipe` loops perform before
building a recipe result (browser.go lines 162-168, oauth2.go lines 150-156):
start from `Itoa(count) + " new documents"`, override with "One new document"
when the counter is 1 and with "No new documents" when it is 0. -/
def newDocumentsText (count : Nat) : String :=
  if count = 0 then "No new documents"
  else if count = 1 then "One new document"
  else toString count ++ " new documents"

/-- Outcome of racing one step handler against the per-recipe timeout:
either the handler wrote a `StepResult` into the single-slot channel first
(`delivered`, carrying the driver's `newFilesCount` at result-build time),
or the timer fired (`timedOut`); in the latter case the abandoned handler's
eventual result never reaches the dispatcher. -/
inductive StepOutcome where
  | delivered : StepResult → Nat → StepOutcome
  | timedOut : Nat → StepOutcome
deriving DecidableEq, Repr

/-- Observable dispatcher side effects, in program order: the
`{title, description}` progress-sink send before a step, the `{percent}`
progress-sink send after a step, and `utils.TruncateDirectory` on the
download staging directory. -/
inductive DispatchEvent where
  | titleUpdate : String → String → DispatchEvent
  | progressUpdate : Rat → DispatchEvent
  | purgeDownloads : DispatchEvent
deriving DecidableEq, Repr

/-- Result of running a dispatcher loop: the returned `RecipeResult`, the
emitted events in order, and how many steps started executing. -/
structure LoopOut where
  result : RecipeResult
  events : List DispatchEvent
  stepsExecuted : Nat
deriving DecidableEq, Repr

/-- The "success" `RecipeResult` built by `BrowserDriver.RunRecipe`
(browser.go lines 170-177). -/
def browserSuccessResult (provider version : String) (step : Step) (n count : Nat) : RecipeResult :=
  { Status := "success"
    StatusText := provider ++ ": " ++ newDocumentsText count
    StatusTextFormatted := "- " ++ textStyleBold provider ++ ": " ++ newDocumentsText count
    LastStepId := provider ++ "-" ++ version ++ "-" ++ toString n ++ "-" ++ step.Action
    LastStepDescription := step.Description
    LastErrorMessage := ""
    NewFilesCount := count }

/-- The "error" `RecipeResult` built by `BrowserDriver.RunRecipe`
(browser.go lines 179-187; the source concatenates `Provider + "aborted
with error."` without a space). -/
def browserErrorResult (provider version : String) (step : Step) (n : Nat) (msg : String) (count : Nat) : RecipeResult :=
  { Status := "error"
    StatusText := provider ++ "aborted with error."
    StatusTextFormatted := "x " ++ textStyleBold provider ++ " aborted with error."
    LastStepId := provider ++ "-" ++ version ++ "-" ++ toString n ++ "-" ++ step.Action
    LastStepDescription := step.Description
    LastErrorMessage := msg
    NewFilesCount := count }

/-- The timeout `RecipeResult` built by `BrowserDriver.RunRecipe`
(browser.go lines 197-204). -/
def browserTimeoutResult (provider version : String) (step : Step) (n count : Nat) : RecipeResult :=
  { Status := "error"
    StatusText := provider ++ " aborted with timeout."
    StatusTextFormatted := "x " ++ textStyleBold provider ++ " aborted with timeout."
    LastStepId := provider ++ "-" ++ version ++ "-" ++ toString n ++ "-" ++ step.Action
    LastStepDescription := step.Description
    LastErrorMessage := ""
    NewFilesCount := count }

/-- The "success" `RecipeResult` built by `ClientAuthBrowserDriver.RunRecipe`
(oauth2.go lines 158-165). -/
def oauth2SuccessResult (supplier version : String) (step : Step) (n count : Nat) : RecipeResult :=
  { Status := "success"
    StatusText := supplier ++ ": " ++ newDocumentsText count
    StatusTextFormatted := "- " ++ textStyleBold supplier ++ ": " ++ newDocumentsText count
    LastStepId := supplier ++ "-" ++ version ++ "-" ++ toString n ++ "-" ++ step.Action
    LastStepDescription := step.Description
    LastErrorMessage := ""
    NewFilesCount := count }

/-- The "error" `RecipeResult` built by `ClientAuthBrowserDriver.RunRecipe`
(oauth2.go lines 167-175). -/
def oauth2ErrorResult (supplier version : String) (step : Step) (n : Nat) (msg : String) (count : Nat) : RecipeResult :=
  { Status := "error"
    StatusText := supplier ++ " aborted with error."
    StatusTextFormatted := "x " ++ textStyleBold supplier ++ " aborted with error."
    LastStepId := supplier ++ "-" ++ version ++ "-" ++ toString n ++ "-" ++ step.Action
    LastStepDescription := step.Description
    LastErrorMessage := msg
    NewFilesCount := count }

/-- The timeout `RecipeResult` built by `ClientAuthBrowserDriver.RunRecipe`
(oauth2.go lines 182-189). -/
def oauth2TimeoutResult (supplier version : String) (step : Step) (n count : Nat) : RecipeResult :=
  { Status := "error"
    StatusText := supplier ++ " aborted with timeout."
    StatusTextFormatted := "x " ++ textStyleBold supplier ++ " aborted with timeout."
    LastStepId := supplier ++ "-" ++ version ++ "-" ++ toString n ++ "-" ++ step.Action
    LastStepDescription := step.Description
    LastErrorMessage := ""
    NewFilesCount := count }

/-- The title-update event sent before each step of the browser-driven loop
(browser.go line 131). -/
def browserTitleEvent (provider : String) (scs n : Nat) (step : Step) : DispatchEvent :=
  DispatchEvent.titleUpdate
    ("Downloading invoices from " ++ provider ++ " (" ++ toString n ++ "/" ++ toString scs ++ "):")
    step.Description

/-- The title-update event sent before each step of the OAuth2-driven loop
(oauth2.go lines 128-131; `fmt.Sprintf` produces the same text shape). -/
def oauth2TitleEvent (supplier : String) (scs n : Nat) (step : Step) : DispatchEvent :=
  DispatchEvent.titleUpdate
    ("Downloading invoices from " ++ supplier ++ " (" ++ toString n ++ "/" ++ toString scs ++ "):")
    step.Description

/-- The progress fraction `(float64(bcs) + float64(n)) / float64(tsc)` both
loops send after a step, over `Rat`. -/
def progressPercent (bcs n tsc : Nat) : Rat :=
  ((bcs : Rat) + (n : Rat)) / (tsc : Rat)

/-- The step loop of `BrowserDriver.RunRecipe` (browser.go lines 129-222),
over the per-step outcomes: send the title update; on a delivered success
result build the success `RecipeResult` and continue (sending the progress
update); on any delivered non-success result build the error `RecipeResult`,
purge the staging directory and return (the break flag is never consulted);
on timeout build the timeout result, purge and return; after the last step
purge and return the carried result. -/
def browserLoop (provider version : String) (tsc scs bcs : Nat) :
    List (Step × StepOutcome) → Nat → RecipeResult → LoopOut
  | [], _, result =>
    { result := result, events := [DispatchEvent.purgeDownloads], stepsExecuted := 0 }
  | (step, outcome) :: rest, n, _ =>
    match outcome with
    | StepOutcome.delivered lsr count =>
      if lsr.Status = "success" then
        let out := browserLoop provider version tsc scs bcs rest (n + 1)
          (browserSuccessResult provider version step n count)
        { result := out.result
          events := browserTitleEvent provider scs n step ::
            DispatchEvent.progressUpdate (progressPercent bcs n tsc) :: out.events
          stepsExecuted := out.stepsExecuted + 1 }
      else
        { result := browserErrorResult provider version step n lsr.Message count
          events := [browserTitleEvent provider scs n step, DispatchEvent.purgeDownloads]
          stepsExecuted := 1 }
    | StepOutcome.timedOut count =>
      { result := browserTimeoutResult provider version step n count
        events := [browserTitleEvent provider scs n step, DispatchEvent.purgeDownloads]
        stepsExecuted := 1 }

/-- The step loop of `ClientAuthBrowserDriver.RunRecipe` (oauth2.go lines
127-198): send the title update; on a delivered success result build the
success `RecipeResult` and continue; on a delivered non-success result build
the error `RecipeResult` and return only when its break flag is set,
otherwise continue with the error result recorded; on timeout build the
timeout result and return. This loop never purges the staging directory. -/
def oauth2Loop (supplier version : String) (tsc scs bcs : Nat) :
    List (Step × StepOutcome) → Nat → RecipeResult → LoopOut
  | [], _, result =>
    { result := result, events := [], stepsExecuted := 0 }
  | (step, outcome) :: rest, n, _ =>
    match outcome with
    | StepOutcome.delivered lsr count =>
      if lsr.Status = "success" then
        let out := oauth2Loop supplier version tsc scs bcs rest (n + 1)
          (oauth2SuccessResult supplier version step n count)
        { result := out.result
          events := oauth2TitleEvent supplier scs n step ::
            DispatchEvent.progressUpdate (progressPercent bcs n tsc) :: out.events
          stepsExecuted := out.stepsExecuted + 1 }
      else
        if lsr.Break then
          { result := oauth2ErrorResult supplier version step n lsr.Message count
            events := [oauth2TitleEvent supplier scs n step]
            stepsExecuted := 1 }
        else
          let out := oauth2Loop supplier version tsc scs bcs rest (n + 1)
            (oauth2ErrorResult supplier version step n lsr.Message count)
          { result := out.result
            events := oauth2TitleEvent supplier scs n step ::
              DispatchEvent.progressUpdate (progressPercent bcs n tsc) :: out.events
            stepsExecuted := out.stepsExecuted + 1 }
    | StepOutcome.timedOut count =>
      { result := oauth2TimeoutResult supplier version step n count
        events := [oauth2TitleEvent supplier scs n step]
        stepsExecuted := 1 }

/-- `recipeTimeout` set by `NewBrowserDriver` (browser.go line 62), in seconds. -/
def browserRecipeTimeoutSeconds : Nat := 60

/-- `recipeTimeout` set by `NewClientAuthBrowserDriver` (oauth2.go line 73),
in seconds. -/
def oauth2RecipeTimeoutSeconds : Nat := 120

/-! ### JSON values and the JSON path extractor (oauth2.go lines 557-605) -/

mutual
/-- Parsed JSON value (`interface{}` after `json.Unmarshal`): string, number,
boolean, null, array (`[]interface{}`) or object (`map[string]interface{}`,
modelled as an ordered association list). -/
inductive Json where
  | str : String → Json
  | num : Int → Json
  | boolean : Bool → Json
  | null : Json
  | arr : JsonList → Json
  | obj : JsonObj → Json
/-- A JSON array's elements. -/
inductive JsonList where
  | nil : JsonList
  | cons : Json → JsonList → JsonList
/-- A JSON object's key-value fields. -/
inductive JsonObj where
  | nil : JsonObj
  | cons : String → Json → JsonObj → JsonObj
end

/-- Whether a key is present in an object (`value, ok := v[key]`, the `ok`). -/
def objHasKey : JsonObj → String → Bool
  | JsonObj.nil, _ => false
  | JsonObj.cons k _ rest, key => if k = key then true else objHasKey rest key

/-- Value bound to a key in an object (`value, ok := v[key]`, the `value`). -/
def objLookup : JsonObj → String → Option Json
  | JsonObj.nil, _ => none
  | JsonObj.cons k v rest, key => if k = key then some v else objLookup rest key

mutual
/-- Embeds `extractJsonRecursive` (oauth2.go lines 568-605). With the key
list exhausted: a string contributes itself, an array contributes its string
elements, anything else contributes nothing. With a key pending: at an
object, descend into the key's value with the remaining keys when the key is
present, otherwise search every value with the same unconsumed key list; at
an array, recurse into every element with the same keys; a scalar
contributes nothing. -/
def extractJsonRecursive : Json → List String → List String
  | Json.str s, [] => [s]
  | Json.arr items, [] => jsonListStrings items
  | Json.num _, [] => []
  | Json.boolean _, [] => []
  | Json.null, [] => []
  | Json.obj _, [] => []
  | Json.obj fields, key :: remaining =>
    if objHasKey fields key then extractObjFound fields key remaining
    else extractObjAll fields (key :: remaining)
  | Json.arr items, keys@(_ :: _) => extractArrAll items keys
  | Json.str _, _ :: _ => []
  | Json.num _, _ :: _ => []
  | Json.boolean _, _ :: _ => []
  | Json.null, _ :: _ => []

/-- The found-key branch `results = append(results,
extractJsonRecursive(value, remainingKeys)...)`, fused with the lookup for
structural recursion: descend into the first field whose key matches. -/
def extractObjFound : JsonObj → String → List String → List String
  | JsonObj.nil, _, _ => []
  | JsonObj.cons k v rest, key, remaining =>
    if k = key then extractJsonRecursive v remaining
    else extractObjFound rest key remaining

/-- The fallback branch `for _, val := range v` with the same key list. -/
def extractObjAll : JsonObj → List String → List String
  | JsonObj.nil, _ => []
  | JsonObj.cons _ v rest, keys => extractJsonRecursive v keys ++ extractObjAll rest keys

/-- The array branch `for _, item := range v` with the same key list. -/
def extractArrAll : JsonList → List String → List String
  | JsonList.nil, _ => []
  | JsonList.cons item rest, keys => extractJsonRecursive item keys ++ extractArrAll rest keys

/-- The exhausted-keys array case: collect exactly the string elements, in
order (`if str, ok := item.(string); ok`). -/
def jsonListStrings : JsonList → List String
  | JsonList.nil => []
  | JsonList.cons (Json.str s) rest => s :: jsonListStrings rest
  | JsonList.cons _ rest => jsonListStrings rest
end

/-- Helper for `goSplitDot`: walk the characters, cutting at each dot. -/
def splitOnDotAux : List Char → List Char → List String
  | [], acc => [String.mk acc.reverse]
  | c :: rest, acc =>
    if c = '.' then String.mk acc.reverse :: splitOnDotAux rest []
    else splitOnDotAux rest (c :: acc)

/-- Embeds `strings.Split(path, ".")` as used by `extractJsonValue`
(oauth2.go line 561): split on each dot; the empty string splits to
one empty segment. -/
def goSplitDot (s : String) : List String :=
  splitOnDotAux s.toList []

/-- Embeds `extractJsonValue` (oauth2.go lines 560-563). -/
def extractJsonValue (data : Json) (path : String) : List String :=
  extractJsonRecursive data (goSplitDot path)

/-! ### OAuth2 tokens, token cache check, token exchange (oauth2.go) -/

/-- Embeds `secrets.Oauth2Tokens` as read by oauth2.go (access and refresh
tokens, creation timestamp, expiry in seconds). -/
structure Oauth2Tokens where
  AccessToken : String
  RefreshToken : String
  CreatedAt : Int
  ExpiresIn : Int
deriving DecidableEq, Repr

/-- Embeds `validOauth2AuthToken` (oauth2.go lines 523-527) with the clock
explicit: valid iff `CreatedAt + ExpiresIn > now`. -/
def validOauth2AuthToken (tokens : Oauth2Tokens) (now : Int) : Bool :=
  decide (tokens.CreatedAt + tokens.ExpiresIn > now)

/-- Embeds `stepOauth2CheckTokens` (oauth2.go lines 215-245). Environment:
`cached` is the outcome of `secrets.GetOauthAccessTokenFromCache` for the key
`supplier|credentialId` (`none` = lookup error, i.e. no cached tokens);
`refreshOutcome` is the outcome of the refresh-token exchange
(`getOauth2Tokens`), consulted only on the expired path; it is an `Option`
because the source tests only `err == nil` there and never reads the error
value — a failed refresh's error message is discarded. Returns the value
assigned to the driver's `oauth2AuthToken` field (if any) and the
`StepResult`. -/
def stepOauth2CheckTokens (cached : Option Oauth2Tokens)
    (refreshOutcome : Option Oauth2Tokens) (now : Int) : Option String × StepResult :=
  match cached with
  | some tokens =>
    if validOauth2AuthToken tokens now then
      (some tokens.AccessToken,
        { Status := "success", Message := "Found valid oauth2 access token in cache", Break := false })
    else
      match refreshOutcome with
      | some nt =>
        (some nt.AccessToken,
          { Status := "error", Message := "Error getting oauth2 access token with refresh token", Break := true })
      | none =>
        (none,
          { Status := "error", Message := "No access token found. New OAuth2 login needed.", Break := false })
  | none =>
    (none,
      { Status := "error", Message := "No access token found. New OAuth2 login needed.", Break := false })

/-- Environment for one `getOauth2Tokens` call (oauth2.go lines 485-521):
request construction, transport, body read, HTTP status, JSON unmarshal and
token-file write, each with the error text the Go error would render. -/
structure TokenHttpEnv where
  buildError : Option String
  sendError : Option String
  readError : Option String
  status : Nat
  parseError : Option String
  parsed : Oauth2Tokens
  saveError : Option String
deriving DecidableEq, Repr

/-- Embeds `getOauth2Tokens` (oauth2.go lines 485-521): POST the payload to
the token endpoint; 200 parses and persists the token response (wrapping
unmarshal and save errors), 400 is the unauthorized/invalid-grant error, any
other status the unclassified error. The source's message text, including
its "ti file" typo, is preserved. -/
def getOauth2Tokens (env : TokenHttpEnv) : Except String Oauth2Tokens :=
  match env.buildError with
  | some e => Except.error ("failed to create request: " ++ e)
  | none =>
    match env.sendError with
    | some e => Except.error ("failed to send oauth2 token request: " ++ e)
    | none =>
      match env.readError with
      | some e => Except.error ("error reading oauth2 token response body: " ++ e)
      | none =>
        if env.status = 200 then
          match env.parseError with
          | some e => Except.error ("error unmarshalling JSON: " ++ e)
          | none =>
            match env.saveError with
            | some e => Except.error ("error storing Oauth2 token ti file: " ++ e)
            | none => Except.ok env.parsed
        else if env.status = 400 then
          Except.error "unauthorized error while trying to get oauth2 access token with refresh token"
        else
          Except.error "unknown error getting oauth2 token"

/-! ### The oauth2-post-and-get-items step (oauth2.go lines 355-448) -/

/-- Embeds `filepath.Join` for the clean path segments the step produces:
empty segments are dropped and the rest joined with a separator. -/
def goFilepathJoin (parts : List String) : String :=
  String.intercalate "/" (parts.filter (fun p => ¬ p = ""))

/-- Environment for one `stepOauth2PostAndGetItems` call: request
construction and transport for the items POST, body read, HTTP status, the
parsed response body (an unmarshal failure panics in the source and is not
modelled), and the per-document effects indexed by loop position —
`doRequest` success, archive existence for the staged file path, copy and
archive-add errors. -/
structure PostItemsEnv where
  buildOk : Bool
  sendError : Option String
  readOk : Bool
  status : Nat
  body : Json
  downloadOk : Nat → Bool
  fileExists : String → Bool
  copyError : Nat → Option String
  addFileError : Nat → Option String

/-- The per-identifier download loop of `stepOauth2PostAndGetItems`
(oauth2.go lines 405-440): build the staged path from the positional
filename when filenames were extracted, else from
`filepath.Join(dir, id, ".pdf")`; a failed download aborts the step; a file
the archive does not yet have increments the counter and is copied and
registered, either of which can abort the step with its wrapped error.
Returns the final counter and an early error result if any. -/
def postItemsDownloadLoop (env : PostItemsEnv) (downloadsDirectory documentsDirectory : String)
    (filenames : List String) : List String → Nat → Nat → Nat × Option StepResult
  | [], _, count => (count, none)
  | id :: rest, n, count =>
    let f := if filenames.length > 0 then
        goFilepathJoin [downloadsDirectory, filenames.getD n ""]
      else goFilepathJoin [downloadsDirectory, id, ".pdf"]
    let filename := if filenames.length > 0 then filenames.getD n ""
      else goFilepathJoin [id, ".pdf"]
    if env.downloadOk n = false then
      (count, some { Status := "error", Message := "Error while downloading invoices", Break := false })
    else if env.fileExists f = false then
      match env.copyError n with
      | some e =>
        (count + 1, some { Status := "error", Message := "Error while copying file: " ++ e, Break := false })
      | none =>
        match env.addFileError n with
        | some e =>
          let dstFile := goFilepathJoin [documentsDirectory, filename]
          let msg := "Error while adding file " ++ dstFile ++ " to document archive: " ++ e
          (count + 1, some { Status := "error", Message := msg, Break := false })
        | none => postItemsDownloadLoop env downloadsDirectory documentsDirectory filenames rest (n + 1) (count + 1)
    else postItemsDownloadLoop env downloadsDirectory documentsDirectory filenames rest (n + 1) count

/-- Embeds `stepOauth2PostAndGetItems` (oauth2.go lines 355-448), returning
the driver's `newFilesCount` after the step together with the `StepResult`.
Request-build and transport failures are breaking errors; a body-read
failure is a non-breaking error with an empty message; HTTP 200 resets the
counter, extracts identifiers via the configured id path and fails with a
breaking error when none are found, then runs the download loop; HTTP 400
and every other status yield a non-breaking error with an empty message. -/
def stepOauth2PostAndGetItems (env : PostItemsEnv) (step : Step)
    (downloadsDirectory documentsDirectory : String) (prevCount : Nat) : Nat × StepResult :=
  if env.buildOk = false then
    (prevCount, { Status := "error", Message := "error creating post request", Break := true })
  else
    match env.sendError with
    | some e =>
      (prevCount, { Status := "error", Message := "error sending post request: " ++ e, Break := true })
    | none =>
      if env.readOk = false then
        (prevCount, { Status := "error", Message := "", Break := false })
      else if env.status = 200 then
        let ids := extractJsonValue env.body step.ExtractDocumentIds
        if ids.length = 0 then
          (0, { Status := "error", Message := "No content ids found", Break := true })
        else
          let filenames := if ¬ step.ExtractDocumentFilenames = "" then
              extractJsonValue env.body step.ExtractDocumentFilenames
            else []
          match postItemsDownloadLoop env downloadsDirectory documentsDirectory filenames ids 0 0 with
          | (count, some r) => (count, r)
          | (count, none) => (count, { Status := "success", Message := "", Break := false })
      else if env.status = 400 then
        (prevCount, { Status := "error", Message := "", Break := false })
      else
        (prevCount, { Status := "error", Message := "", Break := false })

/-! ### The downloadAll step (browser.go lines 307-366) -/

/-- Observable actions of the downloadAll step, in order: one
download-trigger click sequence per selected node (mouse-click the node,
wait for the node's full XPath plus the step value to become visible, click
that secondary selector), the 1.5-second delay after each sequence, and the
final wait on the completion barrier. -/
inductive DLAction where
  | clickSeq : String → String → DLAction
  | delayMs : Nat → DLAction
  | waitBarrier : Nat → DLAction
deriving DecidableEq, Repr

/-- The click loop of `stepDownloadAll` (browser.go lines 341-359): iterate
the matched nodes (each represented by its full XPath), stopping once two
download sequences have run; a chromedp error aborts the step; each
successful sequence is followed by a 1500 ms sleep. `clickError i` is the
outcome of the chromedp run for the i-th selected node. -/
def downloadClickLoop (value : String) (clickError : Nat → Option String) :
    List String → Nat → List DLAction × Option String
  | [], _ => ([], none)
  | nd :: rest, x =>
    if x ≥ 2 then ([], none)
    else
      match clickError x with
      | some e => ([], some e)
      | none =>
        let out := downloadClickLoop value clickError rest (x + 1)
        (DLAction.clickSeq nd (nd ++ value) :: DLAction.delayMs 1500 :: out.1, out.2)

/-- Embeds `stepDownloadAll` (browser.go lines 307-366). `nodesResult` is
the outcome of the initial `WaitReady`/`Nodes` chromedp run (the list of
matched nodes' full XPaths). The completion barrier (`sync.WaitGroup`) is
sized to `len(nodes)` capped at 2 before the click loop runs; on success the
step blocks on that barrier before returning. Returns the action trace, the
barrier size and the `StepResult`. -/
def stepDownloadAll (value : String) (nodesResult : Except String (List String))
    (clickError : Nat → Option String) : List DLAction × Nat × StepResult :=
  match nodesResult with
  | Except.error e => ([], 0, { Status := "error", Message := e, Break := false })
  | Except.ok nodes =>
    let dl := nodes.length
    let dl := if dl > 2 then 2 else dl
    let out := downloadClickLoop value clickError nodes 0
    match out.2 with
    | some e => (out.1, dl, { Status := "error", Message := e, Break := false })
    | none =>
      (out.1 ++ [DLAction.waitBarrier dl], dl, { Status := "success", Message := "", Break := false })

/-- Counts the download-trigger click sequences in a downloadAll trace. -/
def countClickSeqs (trace : List DLAction) : Nat :=
  trace.countP (fun a => match a with
    | DLAction.clickSeq _ _ => true
    | _ => false)

/-! ### The sleep step (browser.go lines 284-294) -/

/-- Helper for `goAtoi`: accumulate decimal digits; any non-digit character
is a syntax error. -/
def digitsToNatAux : List Char → Nat → Option Nat
  | [], acc => some acc
  | c :: rest, acc =>
    if c.isDigit then digitsToNatAux rest (acc * 10 + (c.toNat - '0'.toNat))
    else none

/-- Helper for `goAtoi`: a non-empty all-digit run, else a syntax error. -/
def digitsToNat : List Char → Option Nat
  | [] => none
  | c :: rest => digitsToNatAux (c :: rest) 0

/-- The syntax phase of Go's `strconv.Atoi`/`ParseInt` base 10: an optional
sign followed by at least one decimal digit; anything else is a syntax
error (`none`), for which Atoi's returned value is 0. -/
def goParseIntBase10 (s : String) : Option Int :=
  match s.toList with
  | [] => none
  | c :: rest =>
    if c = '-' then (digitsToNat rest).map (fun m => -(m : Int))
    else if c = '+' then (digitsToNat rest).map (fun m => (m : Int))
    else (digitsToNat (c :: rest)).map (fun m => (m : Int))

/-- The 64-bit range clamp of Go's `strconv.ParseInt`: out-of-range values
come back as math.MaxInt64 / math.MinInt64 together with ErrRange. -/
def goIntClamp (v : Int) : Int :=
  if v > 9223372036854775807 then 9223372036854775807
  else if v < -9223372036854775808 then -9223372036854775808
  else v

/-- Embeds `strconv.Atoi(step.Value)` with the error discarded, as the sleep
step does: 0 on a syntax error, the clamped value otherwise. -/
def goAtoi (s : String) : Int :=
  match goParseIntBase10 s with
  | none => 0
  | some v => goIntClamp v

/-- Whether `strconv.Atoi` parses the string without a syntax error, i.e.
whether it is a valid (optionally signed) decimal integer literal. -/
def goAtoiWellFormed (s : String) : Bool :=
  (goParseIntBase10 s).isSome

/-- Embeds `stepSleep` (browser.go lines 284-294): parse the step value with
`strconv.Atoi`, ignoring the parse error, sleep that many seconds via
`chromedp.Sleep`, and report the chromedp run's outcome (`runError`, an
environment input unrelated to the parsed value). Returns the slept seconds
and the `StepResult`. -/
def stepSleep (step : Step) (runError : Option String) : Int × StepResult :=
  let seconds := goAtoi step.Value
  match runError with
  | some e => (seconds, { Status := "error", Message := e, Break := false })
  | none => (seconds, { Status := "success", Message := "", Break := false })

/-! ### Concrete inputs used to instantiate the theorems -/

/-- The click-sequence/delay action trace the downloadAll click loop produces
for a list of selected nodes, written as a fold for direct comparison with
`downloadClickLoop`. -/
def clickTrace (value : String) (nodes : List String) : List DLAction :=
  nodes.foldr (fun nd acc => DLAction.clickSeq nd (nd ++ value) :: DLAction.delayMs 1500 :: acc) []

/-- A concrete recipe step. -/
def stepA : Step :=
  { Action := "open", Description := "d1", Selector := "", Value := "", URL := ""
    Body := "", ExtractDocumentIds := "", ExtractDocumentFilenames := "", DocumentUrl := "" }

/-- A second concrete recipe step. -/
def stepB : Step :=
  { stepA with Action := "click", Description := "d2" }

/-- A concrete cached token set (created at 1000, expiring after 50 seconds). -/
def tokensA : Oauth2Tokens :=
  { AccessToken := "A", RefreshToken := "R", CreatedAt := 1000, ExpiresIn := 50 }

/-- A concrete refreshed token set. -/
def tokensB : Oauth2Tokens :=
  { AccessToken := "B", RefreshToken := "R2", CreatedAt := 2000, ExpiresIn := 3600 }

/-- A step configured with a document-id extraction path. -/
def c5step : Step :=
  { stepA with Action := "oauth2-post-and-get-items", ExtractDocumentIds := "x" }

/-- An items-request environment answering HTTP 200 with a body that yields
no identifiers for the path "x". -/
def c5env : PostItemsEnv :=
  { buildOk := true, sendError := none, readOk := true, status := 200, body := Json.null
    downloadOk := fun _ => true, fileExists := fun _ => false
    copyError := fun _ => none, addFileError := fun _ => none }

/-- An items-request environment answering HTTP 400. -/
def c7penv : PostItemsEnv :=
  { buildOk := true, sendError := none, readOk := true, status := 400, body := Json.null
    downloadOk := fun _ => true, fileExists := fun _ => false
    copyError := fun _ => none, addFileError := fun _ => none }

/-- A token-exchange environment answering HTTP 400 with no transport errors. -/
def c7tenv : TokenHttpEnv :=
  { buildError := none, sendError := none, readError := none, status := 400
    parseError := none, parsed := tokensA, saveError := none }

/-- The no-error click environment for the downloadAll step. -/
def noClickErrors : Nat → Option String := fun _ => none

/-- A sleep step whose value is not a decimal integer. -/
def c10step : Step :=
  { stepA with Action := "sleep", Value := "abc" }

/-! ### Claims about the dispatcher loops -/

/-- Claim C1 counterexample: in the browser-driven dispatcher a step that
returns an error StepResult with the break flag false still halts the run —
the second step never executes, contradicting "when break is false the next
step still runs". -/
theorem C1_counterexample :
    (browserLoop "p" "v" 2 2 0
      [(stepA, StepOutcome.delivered { Status := "error", Message := "m", Break := false } 0),
       (stepB, StepOutcome.delivered { Status := "success", Message := "", Break := false } 0)]
      1 emptyRecipeResult).stepsExecuted = 1 := by
  rfl

/-- Claim C1 (amended): when a step's handler returns an error StepResult,
both dispatcher variants build an error RecipeResult carrying that step's
message and identifier. In the OAuth2-driven variant execution halts
immediately exactly when the break flag is true, and when it is false the
next step still runs and its outcome overwrites the recorded result. In the
browser-driven variant every error StepResult halts execution immediately,
regardless of the break flag. -/
theorem C1_error_dispatch (provider supplier version msg : String) (brk : Bool)
    (tsc scs bcs n count : Nat) (step : Step) (rest : List (Step × StepOutcome))
    (r r1 r2 : RecipeResult) :
    browserLoop provider version tsc scs bcs
        ((step, StepOutcome.delivered { Status := "error", Message := msg, Break := brk } count) :: rest) n r
      = { result := browserErrorResult provider version step n msg count
          events := [browserTitleEvent provider scs n step, DispatchEvent.purgeDownloads]
          stepsExecuted := 1 }
    ∧ (browserErrorResult provider version step n msg count).Status = "error"
    ∧ (browserErrorResult provider version step n msg count).LastErrorMessage = msg
    ∧ (browserErrorResult provider version step n msg count).LastStepId
        = provider ++ "-" ++ version ++ "-" ++ toString n ++ "-" ++ step.Action
    ∧ oauth2Loop supplier version tsc scs bcs
        ((step, StepOutcome.delivered { Status := "error", Message := msg, Break := true } count) :: rest) n r
      = { result := oauth2ErrorResult supplier version step n msg count
          events := [oauth2TitleEvent supplier scs n step]
          stepsExecuted := 1 }
    ∧ oauth2Loop supplier version tsc scs bcs
        ((step, StepOutcome.delivered { Status := "error", Message := msg, Break := false } count) :: rest) n r
      = { result := (oauth2Loop supplier version tsc scs bcs rest (n + 1)
            (oauth2ErrorResult supplier version step n msg count)).result
          events := oauth2TitleEvent supplier scs n step ::
            DispatchEvent.progressUpdate (progressPercent bcs n tsc) ::
            (oauth2Loop supplier version tsc scs bcs rest (n + 1)
              (oauth2ErrorResult supplier version step n msg count)).events
          stepsExecuted := (oauth2Loop supplier version tsc scs bcs rest (n + 1)
            (oauth2ErrorResult supplier version step n msg count)).stepsExecuted + 1 }
    ∧ (oauth2ErrorResult supplier version step n msg count).Status = "error"
    ∧ (oauth2ErrorResult supplier version step n msg count).LastErrorMessage = msg
    ∧ (oauth2ErrorResult supplier version step n msg count).LastStepId
        = supplier ++ "-" ++ version ++ "-" ++ toString n ++ "-" ++ step.Action
    ∧ (¬ rest = [] →
        oauth2Loop supplier version tsc scs bcs rest n r1
          = oauth2Loop supplier version tsc scs bcs rest n r2) := by
  refine ⟨rfl, rfl, rfl, rfl, rfl, rfl, rfl, rfl, rfl, ?_⟩
  intro h
  match rest with
  | [] => exact absurd rfl h
  | (s, o) :: tail => rfl

/-- Claim C1 witness: the amended theorem applied at a concrete soft-failure
trace; the carried recipe result is irrelevant once a further step runs. -/
theorem C1_witness :
    ¬ ([(stepB, StepOutcome.delivered { Status := "success", Message := "", Break := false } 0)]
        : List (Step × StepOutcome)) = []
    ∧ oauth2Loop "s" "v" 2 2 0
        [(stepB, StepOutcome.delivered { Status := "success", Message := "", Break := false } 0)] 1
        emptyRecipeResult
      = oauth2Loop "s" "v" 2 2 0
        [(stepB, StepOutcome.delivered { Status := "success", Message := "", Break := false } 0)] 1
        (oauth2ErrorResult "s" "v" stepA 1 "m" 0) :=
  ⟨by decide,
    (C1_error_dispatch "p" "s" "v" "m" false 2 2 0 1 0 stepA
      [(stepB, StepOutcome.delivered { Status := "success", Message := "", Break := false } 0)]
      emptyRecipeResult emptyRecipeResult (oauth2ErrorResult "s" "v" stepA 1 "m" 0)).2.2.2.2.2.2.2.2.2
      (by decide)⟩

/-- Claim C4 counterexample: in the OAuth2-driven dispatcher a step timeout
does not purge the download staging directory — the run's only events are
the title update, with no purge, contradicting "purges the download staging
directory" for that variant. -/
theorem C4_counterexample :
    (oauth2Loop "s" "v" 1 1 0 [(stepA, StepOutcome.timedOut 0)] 1 emptyRecipeResult).events
      = [DispatchEvent.titleUpdate "Downloading invoices from s (1/1):" "d1"]
    ∧ (oauth2Loop "s" "v" 1 1 0 [(stepA, StepOutcome.timedOut 0)] 1 emptyRecipeResult).result.Status
      = "error" := by
  exact ⟨rfl, rfl⟩

/-- Claim C4 (amended): when a step's handler does not deliver a result
before the per-recipe timeout (60 s browser-driven, 120 s OAuth2-driven),
the dispatcher synthesizes an error result tagged with the step's
supplier-version-index-action identifier and description and returns
immediately; the abandoned handler's eventual result is discarded (a timed
out outcome carries no StepResult). The browser-driven variant purges the
download staging directory on timeout; the OAuth2-driven variant does not. -/
theorem C4_timeout_dispatch (provider supplier version : String)
    (tsc scs bcs n count : Nat) (step : Step) (rest : List (Step × StepOutcome))
    (r : RecipeResult) :
    browserLoop provider version tsc scs bcs ((step, StepOutcome.timedOut count) :: rest) n r
      = { result := browserTimeoutResult provider version step n count
          events := [browserTitleEvent provider scs n step, DispatchEvent.purgeDownloads]
          stepsExecuted := 1 }
    ∧ (browserTimeoutResult provider version step n count).Status = "error"
    ∧ (browserTimeoutResult provider version step n count).LastStepId
        = provider ++ "-" ++ version ++ "-" ++ toString n ++ "-" ++ step.Action
    ∧ (browserTimeoutResult provider version step n count).LastStepDescription = step.Description
    ∧ oauth2Loop supplier version tsc scs bcs ((step, StepOutcome.timedOut count) :: rest) n r
      = { result := oauth2TimeoutResult supplier version step n count
          events := [oauth2TitleEvent supplier scs n step]
          stepsExecuted := 1 }
    ∧ (oauth2TimeoutResult supplier version step n count).Status = "error"
    ∧ (oauth2TimeoutResult supplier version step n count).LastStepId
        = supplier ++ "-" ++ version ++ "-" ++ toString n ++ "-" ++ step.Action
    ∧ (oauth2TimeoutResult supplier version step n count).LastStepDescription = step.Description
    ∧ browserRecipeTimeoutSeconds = 60
    ∧ oauth2RecipeTimeoutSeconds = 120 := by
  exact ⟨rfl, rfl, rfl, rfl, rfl, rfl, rfl, rfl, rfl, rfl⟩

/-- Claim C8 counterexample: a step that aborts the browser-driven run (here
a delivered error result) is followed by no progress event at all — the
events are exactly the title update and the purge — contradicting "after
every step ... emits a progress event". -/
theorem C8_counterexample :
    browserLoop "p" "v" 2 2 0
      [(stepA, StepOutcome.delivered { Status := "error", Message := "m", Break := false } 0)]
      1 emptyRecipeResult
      = { result := browserErrorResult "p" "v" stepA 1 "m" 0
          events := [DispatchEvent.titleUpdate "Downloading invoices from p (1/2):" "d1",
            DispatchEvent.purgeDownloads]
          stepsExecuted := 1 } := by
  rfl

/-- Claim C8 (amended): after every step that does not abort the run — a
success step in either dispatcher variant, and a soft (break=false) error
step in the OAuth2-driven variant — the dispatcher emits a progress event
whose percent equals (steps completed before this recipe + n) / (total step
count across the batch), where n is the 1-based index of the step just
executed; a step that aborts the run emits no progress event. -/
theorem C8_progress_updates (provider supplier version msg : String) (brk : Bool)
    (tsc scs bcs n count : Nat) (step : Step) (rest : List (Step × StepOutcome))
    (r : RecipeResult) :
    (browserLoop provider version tsc scs bcs
        ((step, StepOutcome.delivered { Status := "success", Message := msg, Break := brk } count) :: rest) n r).events
      = browserTitleEvent provider scs n step ::
        DispatchEvent.progressUpdate (progressPercent bcs n tsc) ::
        (browserLoop provider version tsc scs bcs rest (n + 1)
          (browserSuccessResult provider version step n count)).events
    ∧ (oauth2Loop supplier version tsc scs bcs
        ((step, StepOutcome.delivered { Status := "success", Message := msg, Break := brk } count) :: rest) n r).events
      = oauth2TitleEvent supplier scs n step ::
        DispatchEvent.progressUpdate (progressPercent bcs n tsc) ::
        (oauth2Loop supplier version tsc scs bcs rest (n + 1)
          (oauth2SuccessResult supplier version step n count)).events
    ∧ (oauth2Loop supplier version tsc scs bcs
        ((step, StepOutcome.delivered { Status := "error", Message := msg, Break := false } count) :: rest) n r).events
      = oauth2TitleEvent supplier scs n step ::
        DispatchEvent.progressUpdate (progressPercent bcs n tsc) ::
        (oauth2Loop supplier version tsc scs bcs rest (n + 1)
          (oauth2ErrorResult supplier version step n msg count)).events
    ∧ progressPercent bcs n tsc = ((bcs : Rat) + (n : Rat)) / (tsc : Rat) := by
  exact ⟨rfl, rfl, rfl, rfl⟩

/-- Claim C9: every success RecipeResult either dispatcher builds carries the
current new-files counter in NewFilesCount and renders it in the status text
via the pluralization rule: 0 → "No new documents", 1 → "One new document",
any other N → "N new documents". -/
theorem C9_success_result (provider supplier version msg : String) (brk : Bool)
    (tsc scs bcs n count : Nat) (step : Step) (rest : List (Step × StepOutcome))
    (r : RecipeResult) :
    (browserSuccessResult provider version step n count).NewFilesCount = count
    ∧ (browserSuccessResult provider version step n count).StatusText
        = provider ++ ": " ++ newDocumentsText count
    ∧ (oauth2SuccessResult supplier version step n count).NewFilesCount = count
    ∧ (oauth2SuccessResult supplier version step n count).StatusText
        = supplier ++ ": " ++ newDocumentsText count
    ∧ (browserLoop provider version tsc scs bcs
        ((step, StepOutcome.delivered { Status := "success", Message := msg, Break := brk } count) :: rest) n r).result
      = (browserLoop provider version tsc scs bcs rest (n + 1)
          (browserSuccessResult provider version step n count)).result
    ∧ (oauth2Loop supplier version tsc scs bcs
        ((step, StepOutcome.delivered { Status := "success", Message := msg, Break := brk } count) :: rest) n r).result
      = (oauth2Loop supplier version tsc scs bcs rest (n + 1)
          (oauth2SuccessResult supplier version step n count)).result
    ∧ newDocumentsText 0 = "No new documents"
    ∧ newDocumentsText 1 = "One new document"
    ∧ (¬ count = 0 → ¬ count = 1 → newDocumentsText count = toString count ++ " new documents") := by
  refine ⟨rfl, rfl, rfl, rfl, rfl, rfl, rfl, rfl, ?_⟩
  intro h0 h1
  unfold newDocumentsText
  rw [if_neg h0, if_neg h1]

/-- Claim C9 witness: the pluralization conjunct applied at counter value 2. -/
theorem C9_witness : newDocumentsText 2 = "2 new documents" :=
  ((C9_success_result "p" "s" "v" "" false 1 1 0 1 2 stepA [] emptyRecipeResult).2.2.2.2.2.2.2.2
    (by decide) (by decide)).trans rfl

/-! ### Claims about the OAuth2 check-tokens and sleep steps -/

/-- Claim C2: in oauth2-check-tokens, cached tokens that are still valid are
adopted with a success result; cached but expired tokens whose refresh
exchange succeeds are adopted yet reported as an error with break=true,
which aborts the recipe; a missing cache entry yields an error with the
break flag not set, so the next step can run the interactive login. -/
theorem C2_check_tokens (t nt : Oauth2Tokens) (refreshOutcome : Option Oauth2Tokens)
    (now : Int) (supplier version msg : String) (tsc scs bcs n count : Nat) (step : Step)
    (rest : List (Step × StepOutcome)) (r : RecipeResult) :
    (validOauth2AuthToken t now = true →
      stepOauth2CheckTokens (some t) refreshOutcome now
        = (some t.AccessToken,
            { Status := "success", Message := "Found valid oauth2 access token in cache", Break := false }))
    ∧ (validOauth2AuthToken t now = false →
      stepOauth2CheckTokens (some t) (some nt) now
        = (some nt.AccessToken,
            { Status := "error", Message := "Error getting oauth2 access token with refresh token", Break := true }))
    ∧ (validOauth2AuthToken t now = false →
      stepOauth2CheckTokens (some t) none now
        = (none,
            { Status := "error", Message := "No access token found. New OAuth2 login needed.", Break := false }))
    ∧ stepOauth2CheckTokens none refreshOutcome now
        = (none,
            { Status := "error", Message := "No access token found. New OAuth2 login needed.", Break := false })
    ∧ (oauth2Loop supplier version tsc scs bcs
        ((step, StepOutcome.delivered { Status := "error", Message := msg, Break := true } count) :: rest) n r).stepsExecuted
      = 1
    ∧ (oauth2Loop supplier version tsc scs bcs
        ((step, StepOutcome.delivered { Status := "error", Message := msg, Break := false } count) :: rest) n r).stepsExecuted
      = (oauth2Loop supplier version tsc scs bcs rest (n + 1)
          (oauth2ErrorResult supplier version step n msg count)).stepsExecuted + 1 := by
  refine ⟨?_, ?_, ?_, rfl, rfl, rfl⟩
  · intro h
    simp [stepOauth2CheckTokens, h]
  · intro h
    simp [stepOauth2CheckTokens, h]
  · intro h
    simp [stepOauth2CheckTokens, h]

/-- Claim C2 witness: the three cache scenarios at concrete tokens — valid
at now = 1049 (created 1000, expires in 50), expired at now = 1051 with a
successful refresh, and a missing cache entry. -/
theorem C2_witness :
    validOauth2AuthToken tokensA 1049 = true
    ∧ stepOauth2CheckTokens (some tokensA) none 1049
      = (some "A",
          { Status := "success", Message := "Found valid oauth2 access token in cache", Break := false })
    ∧ validOauth2AuthToken tokensA 1051 = false
    ∧ stepOauth2CheckTokens (some tokensA) (some tokensB) 1051
      = (some "B",
          { Status := "error", Message := "Error getting oauth2 access token with refresh token", Break := true })
    ∧ stepOauth2CheckTokens none (some tokensB) 1051
      = (none,
          { Status := "error", Message := "No access token found. New OAuth2 login needed.", Break := false }) := by
  refine ⟨rfl, ?_, rfl, ?_, ?_⟩
  · exact (C2_check_tokens tokensA tokensB none 1049 "s" "v" "m" 1 1 0 1 0 stepA [] emptyRecipeResult).1 rfl
  · exact (C2_check_tokens tokensA tokensB (some tokensB) 1051 "s" "v" "m" 1 1 0 1 0 stepA [] emptyRecipeResult).2.1 rfl
  · exact (C2_check_tokens tokensA tokensB (some tokensB) 1051 "s" "v" "m" 1 1 0 1 0 stepA [] emptyRecipeResult).2.2.2.1

/-- Claim C10: a sleep step whose value is not a valid decimal integer
ignores the parse error, sleeps zero seconds and succeeds; whether a sleep
step fails is independent of its value and determined solely by the
browser-run outcome. -/
theorem C10_sleep_malformed (step : Step) (runError : Option String)
    (h : goAtoiWellFormed step.Value = false) :
    (stepSleep step none).1 = 0
    ∧ (stepSleep step none).2 = { Status := "success", Message := "", Break := false }
    ∧ ((stepSleep step runError).2.Status = "success" ↔ runError = none) := by
  have hz : goAtoi step.Value = 0 := by
    unfold goAtoi
    unfold goAtoiWellFormed at h
    cases hp : goParseIntBase10 step.Value with
    | none => rfl
    | some v => rw [hp] at h; simp at h
  refine ⟨?_, rfl, ?_⟩
  · simp [stepSleep, hz]
  · cases runError with
    | none => simp [stepSleep]
    | some e => simp [stepSleep]

/-- Claim C10 witness: the sleep step at the malformed value "abc". -/
theorem C10_witness :
    goAtoiWellFormed c10step.Value = false
    ∧ (stepSleep c10step none).1 = 0
    ∧ (stepSleep c10step none).2 = { Status := "success", Message := "", Break := false } :=
  ⟨rfl, (C10_sleep_malformed c10step none rfl).1, (C10_sleep_malformed c10step none rfl).2.1⟩

/-! ### Claim about the JSON path extractor -/

/-- Key presence agrees with lookup success on an object. -/
theorem objHasKey_eq_isSome : ∀ (fields : JsonObj) (key : String),
    objHasKey fields key = (objLookup fields key).isSome
  | JsonObj.nil, _ => rfl
  | JsonObj.cons k _ rest, key => by
    by_cases h : k = key
    · simp [objHasKey, objLookup, h]
    · simp [objHasKey, objLookup, h, objHasKey_eq_isSome rest key]

/-- When the lookup finds a value, the fused found-key branch descends into
exactly that value. -/
theorem extractObjFound_eq : ∀ (fields : JsonObj) (key : String) (remaining : List String)
    (v : Json), objLookup fields key = some v →
    extractObjFound fields key remaining = extractJsonRecursive v remaining
  | JsonObj.nil, _, _, _, h => by simp [objLookup] at h
  | JsonObj.cons k w rest, key, remaining, v, h => by
    by_cases hk : k = key
    · simp [objLookup, hk] at h
      simp [extractObjFound, hk, h]
    · simp [objLookup, hk] at h
      simp [extractObjFound, hk, extractObjFound_eq rest key remaining v h]

/-- Claim C3: the extractor follows the recursion of `extractJsonRecursive`:
at a mapping, descend into the current key's value when present, otherwise
search every value of that mapping with the same unconsumed key list; at a
sequence, recurse into every element with the same remaining keys; with the
key list exhausted, a string leaf contributes itself, a sequence contributes
its string elements, anything else contributes nothing; and the four stated
example extractions hold. -/
theorem C3_json_path_extractor (s key : String) (remaining : List String)
    (k : String) (v j data : Json) (restFields fields : JsonObj)
    (restItems items : JsonList) (val : Json) (path : String) :
    (objLookup fields key = some val →
      extractJsonRecursive (Json.obj fields) (key :: remaining)
        = extractJsonRecursive val remaining)
    ∧ (objLookup (JsonObj.cons k v restFields) key = none →
      extractJsonRecursive (Json.obj (JsonObj.cons k v restFields)) (key :: remaining)
        = extractJsonRecursive v (key :: remaining)
          ++ extractJsonRecursive (Json.obj restFields) (key :: remaining))
    ∧ extractJsonRecursive (Json.obj JsonObj.nil) (key :: remaining) = []
    ∧ extractJsonRecursive (Json.arr (JsonList.cons j restItems)) (key :: remaining)
      = extractJsonRecursive j (key :: remaining)
        ++ extractJsonRecursive (Json.arr restItems) (key :: remaining)
    ∧ extractJsonRecursive (Json.arr JsonList.nil) (key :: remaining) = []
    ∧ extractJsonRecursive (Json.str s) [] = [s]
    ∧ extractJsonRecursive (Json.arr items) [] = jsonListStrings items
    ∧ jsonListStrings (JsonList.cons (Json.str s) restItems) = s :: jsonListStrings restItems
    ∧ ((∀ w, ¬ j = Json.str w) →
        jsonListStrings (JsonList.cons j restItems) = jsonListStrings restItems)
    ∧ extractJsonRecursive (Json.obj fields) [] = []
    ∧ extractJsonRecursive Json.null [] = []
    ∧ extractJsonValue data path = extractJsonRecursive data (goSplitDot path)
    ∧ goSplitDot "a.b" = ["a", "b"]
    ∧ extractJsonValue
        (Json.obj (JsonObj.cons "a"
          (Json.obj (JsonObj.cons "b" (Json.str "x") JsonObj.nil)) JsonObj.nil)) "a.b"
      = ["x"]
    ∧ extractJsonValue
        (Json.obj (JsonObj.cons "a"
          (Json.obj (JsonObj.cons "c"
            (Json.obj (JsonObj.cons "b" (Json.str "y") JsonObj.nil)) JsonObj.nil)) JsonObj.nil)) "a.b"
      = ["y"]
    ∧ extractJsonValue
        (Json.obj (JsonObj.cons "a"
          (Json.arr (JsonList.cons (Json.obj (JsonObj.cons "b" (Json.str "x") JsonObj.nil))
            (JsonList.cons (Json.obj (JsonObj.cons "b" (Json.str "y") JsonObj.nil))
              JsonList.nil))) JsonObj.nil)) "a.b"
      = ["x", "y"]
    ∧ extractJsonValue
        (Json.obj (JsonObj.cons "a"
          (Json.obj (JsonObj.cons "b"
            (Json.arr (JsonList.cons (Json.str "x") (JsonList.cons (Json.str "y") JsonList.nil)))
            JsonObj.nil)) JsonObj.nil)) "a.b"
      = ["x", "y"] := by
  refine ⟨?_, ?_, rfl, rfl, rfl, rfl, rfl, rfl, ?_, rfl, rfl, rfl, rfl, rfl, rfl, rfl, rfl⟩
  · intro h
    have hk : objHasKey fields key = true := by
      rw [objHasKey_eq_isSome, h]
      rfl
    show (if objHasKey fields key then extractObjFound fields key remaining
      else extractObjAll fields (key :: remaining)) = extractJsonRecursive val remaining
    rw [hk, if_pos rfl]
    exact extractObjFound_eq fields key remaining val h
  · intro h
    have hk : objHasKey (JsonObj.cons k v restFields) key = false := by
      rw [objHasKey_eq_isSome, h]
      rfl
    have hk2 : objHasKey restFields key = false := by
      have h2 : objLookup restFields key = none := by
        by_cases hkk : k = key
        · exfalso
          have : objLookup (JsonObj.cons k v restFields) key = some v := by
            simp [objLookup, hkk]
          rw [this] at h
          exact Option.noConfusion h
        · simpa [objLookup, hkk] using h
      rw [objHasKey_eq_isSome, h2]
      rfl
    show (if objHasKey (JsonObj.cons k v restFields) key then
        extractObjFound (JsonObj.cons k v restFields) key remaining
      else extractObjAll (JsonObj.cons k v restFields) (key :: remaining))
      = extractJsonRecursive v (key :: remaining)
        ++ extractJsonRecursive (Json.obj restFields) (key :: remaining)
    rw [hk]
    show extractObjAll (JsonObj.cons k v restFields) (key :: remaining)
      = extractJsonRecursive v (key :: remaining)
        ++ extractJsonRecursive (Json.obj restFields) (key :: remaining)
    show extractJsonRecursive v (key :: remaining) ++ extractObjAll restFields (key :: remaining)
      = extractJsonRecursive v (key :: remaining)
        ++ extractJsonRecursive (Json.obj restFields) (key :: remaining)
    congr 1
    show extractObjAll restFields (key :: remaining)
      = (if objHasKey restFields key then extractObjFound restFields key remaining
        else extractObjAll restFields (key :: remaining))
    rw [hk2]
    rfl
  · intro hj
    match j with
    | Json.str w => exact absurd rfl (hj w)
    | Json.num _ => rfl
    | Json.boolean _ => rfl
    | Json.null => rfl
    | Json.arr _ => rfl
    | Json.obj _ => rfl

/-- Claim C3 witness: the found-key descent, the missing-key fallback and the
non-string filter applied at concrete values. -/
theorem C3_witness :
    objLookup (JsonObj.cons "b" (Json.str "x") JsonObj.nil) "b" = some (Json.str "x")
    ∧ extractJsonRecursive (Json.obj (JsonObj.cons "b" (Json.str "x") JsonObj.nil)) ["b"]
      = extractJsonRecursive (Json.str "x") []
    ∧ objLookup (JsonObj.cons "c" (Json.str "z") JsonObj.nil) "b" = none
    ∧ extractJsonRecursive (Json.obj (JsonObj.cons "c" (Json.str "z") JsonObj.nil)) ["b"]
      = extractJsonRecursive (Json.str "z") ["b"]
        ++ extractJsonRecursive (Json.obj JsonObj.nil) ["b"]
    ∧ jsonListStrings (JsonList.cons Json.null JsonList.nil) = jsonListStrings JsonList.nil := by
  refine ⟨rfl, ?_, rfl, ?_, ?_⟩
  · exact (C3_json_path_extractor "x" "b" [] "b" (Json.str "x") Json.null Json.null
      JsonObj.nil (JsonObj.cons "b" (Json.str "x") JsonObj.nil) JsonList.nil JsonList.nil
      (Json.str "x") "").1 rfl
  · exact (C3_json_path_extractor "x" "b" [] "c" (Json.str "z") Json.null Json.null
      JsonObj.nil JsonObj.nil JsonList.nil JsonList.nil Json.null "").2.1 rfl
  · exact (C3_json_path_extractor "x" "b" [] "c" (Json.str "z") Json.null Json.null
      JsonObj.nil JsonObj.nil JsonList.nil JsonList.nil Json.null "").2.2.2.2.2.2.2.2.1
      (fun w hw => Json.noConfusion hw)

/-! ### Claims about the items fetch, the downloadAll step and token HTTP errors -/

/-- Claim C5 counterexample: an items request answered with HTTP 200 whose
body yields zero identifiers for the configured id path fails with the break
flag SET — `Break := true` — contradicting "the break flag not set (false)". -/
theorem C5_counterexample :
    stepOauth2PostAndGetItems c5env c5step "downloads" "documents" 0
      = (0, { Status := "error", Message := "No content ids found", Break := true }) := by
  rfl

/-- Claim C5 (amended): when the items request succeeds with HTTP 200 but
extracting document identifiers with the configured id path yields zero
identifiers, the step fails with the break flag set (break=true), so the
OAuth2 dispatcher aborts the recipe — the next step does not run. -/
theorem C5_zero_ids (env : PostItemsEnv) (step : Step) (ddir mdir : String) (prev : Nat)
    (supplier version : String) (tsc scs bcs n count : Nat) (dstep : Step)
    (rest : List (Step × StepOutcome)) (r : RecipeResult)
    (hb : env.buildOk = true) (hs : env.sendError = none) (hr : env.readOk = true)
    (h200 : env.status = 200)
    (hids : extractJsonValue env.body step.ExtractDocumentIds = []) :
    stepOauth2PostAndGetItems env step ddir mdir prev
      = (0, { Status := "error", Message := "No content ids found", Break := true })
    ∧ (oauth2Loop supplier version tsc scs bcs
        ((dstep, StepOutcome.delivered
          { Status := "error", Message := "No content ids found", Break := true } count) :: rest)
        n r).stepsExecuted = 1 := by
  refine ⟨?_, rfl⟩
  simp [stepOauth2PostAndGetItems, hb, hs, hr, h200, hids]

/-- Claim C5 witness: the amended theorem at the concrete HTTP-200
environment whose body yields no identifiers. -/
theorem C5_witness :
    c5env.status = 200
    ∧ extractJsonValue c5env.body c5step.ExtractDocumentIds = []
    ∧ stepOauth2PostAndGetItems c5env c5step "downloads" "documents" 7
      = (0, { Status := "error", Message := "No content ids found", Break := true }) :=
  ⟨rfl, rfl,
    (C5_zero_ids c5env c5step "downloads" "documents" 7 "s" "v" 1 1 0 1 0 stepA []
      emptyRecipeResult rfl rfl rfl rfl rfl).1⟩

/-- With an error-free click environment the downloadAll click loop clicks
exactly the first `2 - x` remaining nodes, each followed by the delay, and
reports no error. -/
theorem downloadClickLoop_no_errors (value : String) (clickError : Nat → Option String)
    (h : ∀ i, clickError i = none) :
    ∀ (nodes : List String) (x : Nat),
      downloadClickLoop value clickError nodes x
        = (clickTrace value (nodes.take (2 - x)), none)
  | [], x => by simp [downloadClickLoop, clickTrace]
  | nd :: rest, x => by
    by_cases hx : x ≥ 2
    · have h2 : 2 - x = 0 := by omega
      simp [downloadClickLoop, hx, h2, clickTrace]
    · have h2 : 2 - x = (2 - (x + 1)) + 1 := by omega
      have ih := downloadClickLoop_no_errors value clickError h rest (x + 1)
      rw [h2]
      simp [downloadClickLoop, hx, h x, ih, clickTrace]

/-- A click trace contains one click sequence per node. -/
theorem countClickSeqs_clickTrace (value : String) : ∀ (nodes : List String),
    countClickSeqs (clickTrace value nodes) = nodes.length
  | [] => rfl
  | nd :: rest => by
    have ih := countClickSeqs_clickTrace value rest
    simp only [clickTrace, List.foldr_cons, countClickSeqs, List.countP_cons] at ih ⊢
    simp at ih ⊢
    omega

/-- Click-sequence counting distributes over trace concatenation. -/
theorem countClickSeqs_append (a b : List DLAction) :
    countClickSeqs (a ++ b) = countClickSeqs a + countClickSeqs b := by
  simp [countClickSeqs, List.countP_append]

/-- Claim C6: for a downloadAll step with n matching nodes and error-free
clicks, exactly min(n, 2) download-trigger click sequences occur (node
click, wait for the node's full path plus step value, click that), each
followed by the 1.5-second delay, the completion barrier is sized to
min(n, 2), and the step returns success only after waiting on that barrier. -/
theorem C6_download_all (value : String) (nodes : List String)
    (clickError : Nat → Option String) (h : ∀ i, clickError i = none) :
    (stepDownloadAll value (Except.ok nodes) clickError).1
      = clickTrace value (nodes.take 2)
        ++ [DLAction.waitBarrier (if nodes.length > 2 then 2 else nodes.length)]
    ∧ (stepDownloadAll value (Except.ok nodes) clickError).2.1 = min nodes.length 2
    ∧ (stepDownloadAll value (Except.ok nodes) clickError).2.2
      = { Status := "success", Message := "", Break := false }
    ∧ countClickSeqs (stepDownloadAll value (Except.ok nodes) clickError).1
      = min nodes.length 2
    ∧ (if nodes.length > 2 then 2 else nodes.length) = min nodes.length 2 := by
  have hloop := downloadClickLoop_no_errors value clickError h nodes 0
  have hmin : (if nodes.length > 2 then 2 else nodes.length) = min nodes.length 2 := by
    by_cases hc : nodes.length > 2 <;> simp [hc] <;> omega
  have h1 : (stepDownloadAll value (Except.ok nodes) clickError).1
      = clickTrace value (nodes.take 2)
        ++ [DLAction.waitBarrier (if nodes.length > 2 then 2 else nodes.length)] := by
    simp [stepDownloadAll, hloop]
  refine ⟨h1, ?_, ?_, ?_, hmin⟩
  · simp [stepDownloadAll, hloop, hmin]
  · simp [stepDownloadAll, hloop]
  · rw [h1, countClickSeqs_append, countClickSeqs_clickTrace]
    have : countClickSeqs [DLAction.waitBarrier (if nodes.length > 2 then 2 else nodes.length)] = 0 := rfl
    rw [this]
    simp [List.length_take, Nat.min_comm]

/-- Claim C6 witness: the downloadAll step over five matching nodes — exactly
two click sequences, a barrier of size two, and a success result. -/
theorem C6_witness :
    (stepDownloadAll "dl" (Except.ok ["n1", "n2", "n3", "n4", "n5"]) noClickErrors).2.1 = 2
    ∧ countClickSeqs (stepDownloadAll "dl" (Except.ok ["n1", "n2", "n3", "n4", "n5"]) noClickErrors).1 = 2
    ∧ (stepDownloadAll "dl" (Except.ok ["n1", "n2", "n3", "n4", "n5"]) noClickErrors).2.2
      = { Status := "success", Message := "", Break := false } := by
  have hc := C6_download_all "dl" ["n1", "n2", "n3", "n4", "n5"] noClickErrors (fun _ => rfl)
  exact ⟨hc.2.1.trans rfl, hc.2.2.2.1.trans rfl, hc.2.2.1⟩

/-- A string beginning with a non-empty prefix is non-empty. -/
theorem appendLeftNonEmpty (a b : String) (h : 0 < a.length) : ¬ a ++ b = "" := by
  intro hab
  have h2 : (a ++ b).length = 0 := by rw [hab]; rfl
  rw [String.length_append] at h2
  omega

/-- Every error `getOauth2Tokens` returns carries a non-empty message. -/
theorem getOauth2Tokens_error_nonempty (env : TokenHttpEnv) (msg : String)
    (h : getOauth2Tokens env = Except.error msg) : ¬ msg = "" := by
  unfold getOauth2Tokens at h
  cases hbe : env.buildError with
  | some e =>
    rw [hbe] at h
    simp at h
    subst h
    exact appendLeftNonEmpty _ _ (by decide)
  | none =>
    rw [hbe] at h
    cases hse : env.sendError with
    | some e =>
      rw [hse] at h
      simp at h
      subst h
      exact appendLeftNonEmpty _ _ (by decide)
    | none =>
      rw [hse] at h
      cases hre : env.readError with
      | some e =>
        rw [hre] at h
        simp at h
        subst h
        exact appendLeftNonEmpty _ _ (by decide)
      | none =>
        rw [hre] at h
        by_cases h200 : env.status = 200
        · rw [if_pos h200] at h
          cases hpe : env.parseError with
          | some e =>
            rw [hpe] at h
            simp at h
            subst h
            exact appendLeftNonEmpty _ _ (by decide)
          | none =>
            rw [hpe] at h
            cases hsa : env.saveError with
            | some e =>
              rw [hsa] at h
              simp at h
              subst h
              exact appendLeftNonEmpty _ _ (by decide)
            | none =>
              rw [hsa] at h
              simp at h
        · rw [if_neg h200] at h
          by_cases h400 : env.status = 400
          · rw [if_pos h400] at h
            simp at h
            subst h
            decide
          · rw [if_neg h400] at h
            simp at h
            subst h
            decide

/-- Claim C7 counterexample: the items request answered with HTTP 400
produces an error StepResult whose message is empty — the error is silently
swallowed, contradicting "no error outcome carries an empty message". -/
theorem C7_counterexample :
    (stepOauth2PostAndGetItems c7penv stepA "downloads" "documents" 3).2
      = { Status := "error", Message := "", Break := false } := by
  rfl

/-- Claim C7 (amended): token-exchange and refresh responses are classified
by status code — 200 parses and persists the token response, 400 is the
unauthorized/invalid-grant error, any other status the unclassified error —
and every error of that exchange carries a non-empty message. The exchange
errors are not always surfaced as the calling step's message, however: the
check-tokens step discards the refresh-exchange error and reports the fixed
message "No access token found. New OAuth2 login needed." instead (oauth2.go
lines 236-244 test only err == nil and never read the error value), and the
items request of oauth2-post-and-get-items, while likewise classified by
status, yields 400 and other-status error results that carry an empty
message. -/
theorem C7_http_classification (env : TokenHttpEnv) (msg : String)
    (t : Oauth2Tokens) (now : Int)
    (penv : PostItemsEnv) (step : Step) (ddir mdir : String) (prev : Nat) :
    (env.buildError = none → env.sendError = none → env.readError = none →
      ((env.status = 200 → env.parseError = none → env.saveError = none →
          getOauth2Tokens env = Except.ok env.parsed)
        ∧ (env.status = 400 →
          getOauth2Tokens env
            = Except.error "unauthorized error while trying to get oauth2 access token with refresh token")
        ∧ (¬ env.status = 200 → ¬ env.status = 400 →
          getOauth2Tokens env = Except.error "unknown error getting oauth2 token")))
    ∧ (getOauth2Tokens env = Except.error msg → ¬ msg = "")
    ∧ (validOauth2AuthToken t now = false →
        stepOauth2CheckTokens (some t) none now
          = (none,
              { Status := "error", Message := "No access token found. New OAuth2 login needed.",
                Break := false }))
    ∧ (penv.buildOk = true → penv.sendError = none → penv.readOk = true →
        ¬ penv.status = 200 →
        (stepOauth2PostAndGetItems penv step ddir mdir prev).2
          = { Status := "error", Message := "", Break := false }) := by
  refine ⟨?_, getOauth2Tokens_error_nonempty env msg, ?_, ?_⟩
  · intro hbe hse hre
    refine ⟨?_, ?_, ?_⟩
    · intro h200 hpe hsa
      simp [getOauth2Tokens, hbe, hse, hre, h200, hpe, hsa]
    · intro h400
      have hne : ¬ env.status = 200 := by omega
      simp [getOauth2Tokens, hbe, hse, hre, h400, hne]
    · intro hne hne4
      simp [getOauth2Tokens, hbe, hse, hre, hne, hne4]
  · intro hv
    simp [stepOauth2CheckTokens, hv]
  · intro hb hs hr hne
    by_cases h400 : penv.status = 400
    · simp [stepOauth2PostAndGetItems, hb, hs, hr, hne, h400]
    · simp [stepOauth2PostAndGetItems, hb, hs, hr, hne, h400]

/-- Claim C7 witness: the classification applied at the concrete HTTP-400
token-exchange environment with its non-empty message, and the check-tokens
step discarding a failed refresh's error in favour of its fixed message at
the concrete expired tokens. -/
theorem C7_witness :
    getOauth2Tokens c7tenv
      = Except.error "unauthorized error while trying to get oauth2 access token with refresh token"
    ∧ ¬ ("unauthorized error while trying to get oauth2 access token with refresh token" : String) = ""
    ∧ validOauth2AuthToken tokensA 1051 = false
    ∧ stepOauth2CheckTokens (some tokensA) none 1051
      = (none,
          { Status := "error", Message := "No access token found. New OAuth2 login needed.",
            Break := false })
    ∧ (stepOauth2PostAndGetItems c7penv stepB "downloads" "documents" 5).2
      = { Status := "error", Message := "", Break := false } := by
  have hc := C7_http_classification c7tenv
    "unauthorized error while trying to get oauth2 access token with refresh token"
    tokensA 1051 c7penv stepB "downloads" "documents" 5
  have h1 := (hc.1 rfl rfl rfl).2.1 rfl
  exact ⟨h1, hc.2.1 h1, rfl, hc.2.2.1 rfl, hc.2.2.2 rfl rfl rfl (by decide)⟩
